import Mathlib

/-!
Shallow embedding of the B2bHolidays request-validation and pricing code
(`src/processors/xml_processor.py` and `src/processors/response_converter.py`).

Python `Decimal` values are modelled as exact rationals (`ℚ`); the pricing
code parses every operand through `Decimal(str(value))`, so decimal string
values round-trip exactly.  Python exceptions that escape a function are
modelled with `Except String`; the string is the exception message as the
caller observes it via `str(ex)`.
-/

namespace B2b

/-- Value of a digit string (all characters assumed decimal digits). -/
def digitsToNat (cs : List Char) : ℕ :=
  cs.foldl (fun acc c => 10 * acc + (c.toNat - 48)) 0

/-- Python `str.upper()` (ASCII). -/
def pyUpper (s : String) : String := ⟨s.data.map Char.toUpper⟩

/-- Python `str.lower()` (ASCII). -/
def pyLower (s : String) : String := ⟨s.data.map Char.toLower⟩

/-- Python `str.strip()`: drop leading and trailing whitespace. -/
def trimChars (cs : List Char) : List Char :=
  ((cs.dropWhile Char.isWhitespace).reverse.dropWhile Char.isWhitespace).reverse

/-- `trimChars` packaged on strings. -/
def pyStrip (s : String) : String := ⟨trimChars s.data⟩

/-- Split a character list on a separator character (`str.split(sep)` /
`String.splitOn` semantics: `n` separators yield `n + 1` chunks). -/
def splitOnChar (sep : Char) : List Char → List (List Char)
  | [] => [[]]
  | c :: rest =>
    match splitOnChar sep rest with
    | [] => [[]]
    | g :: gs => if c = sep then [] :: g :: gs else (c :: g) :: gs

/-- Shared shape of Python numeric-text parsers: unsigned decimal text
`digits [. digits]` with at least one digit, as a rational. -/
def parseUnsignedDecimal (cs : List Char) : Option ℚ :=
  let ip := cs.takeWhile Char.isDigit
  let rest := cs.dropWhile Char.isDigit
  match rest with
  | [] => if ip.isEmpty then none else some ((digitsToNat ip : ℚ))
  | '.' :: fp =>
    if fp.all Char.isDigit && !(ip.isEmpty && fp.isEmpty) then
      some ((digitsToNat ip : ℚ) + (digitsToNat fp : ℚ) / (10 : ℚ) ^ fp.length)
    else none
  | _ => none

/-- Optional sign + unsigned body, with surrounding whitespace stripped. -/
def parseSignedDecimal (s : String) : Option ℚ :=
  match trimChars s.data with
  | '+' :: rest => parseUnsignedDecimal rest
  | '-' :: rest => (parseUnsignedDecimal rest).map Neg.neg
  | cs => parseUnsignedDecimal cs

/-- Acceptance of numeric text by Python's `Decimal` constructor
(common subset: sign, digits, optional fraction; exotic forms such as
exponents, `NaN` and `Infinity` are not needed by the code under study). -/
def parseDecimalString (s : String) : Option ℚ := parseSignedDecimal s

/-- Acceptance of numeric text by Python's `float` constructor (same common
subset as `parseDecimalString`). -/
def parsePyFloat (s : String) : Option ℚ := parseSignedDecimal s

/-- Python `int(s)`: surrounding whitespace stripped, optional sign, then a
non-empty run of digits; anything else raises `ValueError` (modelled `none`). -/
def parsePyInt (s : String) : Option ℤ :=
  let core : List Char → Option ℤ := fun l =>
    if l.isEmpty || !(l.all Char.isDigit) then none else some ((digitsToNat l : ℤ))
  match trimChars s.data with
  | '+' :: rest => core rest
  | '-' :: rest => (core rest).map Neg.neg
  | cs => core cs

/-- Python `str.isdigit()` on ASCII text: non-empty and all digits. -/
def pyIsDigitString (s : String) : Bool :=
  !s.data.isEmpty && s.data.all Char.isDigit

/-- `PricingResponseConverter._round`: `value.quantize(Decimal("0.00"),
rounding=ROUND_HALF_UP)` — round to 2 decimal places, ties away from zero. -/
def roundHalfUp2 (q : ℚ) : ℚ :=
  if 0 ≤ q then ((⌊q * 100 + 1/2⌋ : ℤ) : ℚ) / 100
  else -(((⌊-(q * 100) + 1/2⌋ : ℤ) : ℚ) / 100)

/-- A scalar as it appears in the upstream response's price block; numeric
values are exact decimals (their `str` form reparses to the same value). -/
inductive PyVal where
  | vstr (s : String)
  | vnum (q : ℚ)
  | vnone
deriving Repr, DecidableEq

/-- `PricingResponseConverter._to_decimal`: `Decimal(str(value))` guarded by
`except (ValueError, TypeError)`.  On non-numeric text `Decimal` raises
`decimal.InvalidOperation`, which is an `ArithmeticError`, not a `ValueError`
or `TypeError`: the except clause does not catch it and the exception
escapes the function. -/
def toDecimal : PyVal → Except String ℚ
  | .vnum q => .ok q
  | .vstr s =>
    match parseDecimalString s with
    | some q => .ok q
    | none => .error "InvalidOperation"
  | .vnone => .error "InvalidOperation"

/-- The `price` sub-dictionary of a hotel entry.  The three `selling_*`
fields are those written by the converter; `extra` holds any other keys,
preserved by the `{**price_data, ...}` spread. -/
structure PriceData where
  net : Option PyVal := none
  markup : Option PyVal := none
  currency : Option String := none
  selling_price : Option ℚ := none
  selling_currency : Option String := none
  exchange_rate : Option ℚ := none
  extra : List (String × PyVal) := []
deriving Repr, DecidableEq

/-- Python truthiness of the price dictionary: `hotel.get("price", {})` is
falsy when the key is absent or the dictionary is empty. -/
def PriceData.falsy (p : PriceData) : Bool :=
  p.net.isNone && p.markup.isNone && p.currency.isNone &&
  p.selling_price.isNone && p.selling_currency.isNone &&
  p.exchange_rate.isNone && p.extra.isEmpty

/-- A hotel entry: its optional price block plus all its other fields. -/
structure Hotel where
  price : Option PriceData := none
  rest : List (String × PyVal) := []
deriving Repr, DecidableEq

/-- Converter state: uppercased target currency and the rate table
(dictionary entries in insertion order; rates are exact decimals). -/
structure PricingResponseConverter where
  target_currency : String
  exchange_rates : List (String × ℚ)
deriving Repr, DecidableEq

/-- Dictionary lookup in the rate table. -/
def lookupRate (rates : List (String × ℚ)) (c : String) : Option ℚ :=
  (rates.find? (fun p => p.1 == c)).map Prod.snd

/-- `PricingResponseConverter.__init__`: uppercase the target, substitute the
default table for a falsy (absent or empty) one, then
`_validate_exchange_rates` raises `ValueError` when the target currency has
no entry. -/
def mkConverter (target : String) (rates : Option (List (String × ℚ))) :
    Except String PricingResponseConverter :=
  let t := pyUpper target
  let r := match rates with
    | none => [("USD", (1 : ℚ))]
    | some [] => [("USD", (1 : ℚ))]
    | some l => l
  if (lookupRate r t).isSome then .ok ⟨t, r⟩
  else .error ("Missing exchange rate for target currency: " ++ t)

/-- `PricingResponseConverter._get_exchange_rate`: rate 1 for the target
currency itself, else `rates[target] / rates[source]`, raising `ValueError`
when the source currency is missing from the table (a missing target entry
would be a `KeyError`, and a zero source rate a decimal `DivisionByZero`). -/
def getExchangeRate (c : PricingResponseConverter) (source : String) :
    Except String ℚ :=
  let s := pyUpper source
  if s = c.target_currency then .ok 1
  else
    match lookupRate c.exchange_rates s with
    | none => .error ("Missing exchange rate for: " ++ s)
    | some rs =>
      match lookupRate c.exchange_rates c.target_currency with
      | none => .error "KeyError"
      | some rt => if rs = 0 then .error "DivisionByZero" else .ok (rt / rs)

/-- `PricingResponseConverter._process_hotel`: markup application, currency
conversion, rounding, and the `{**hotel, "price": {**price_data, ...}}`
update.  Escaping exceptions (from `_to_decimal` or `_get_exchange_rate`)
are the `.error` branch. -/
def processHotel (c : PricingResponseConverter) (hotel : Hotel) :
    Except String Hotel :=
  match hotel.price with
  | none => .ok hotel
  | some pd =>
    if pd.falsy then .ok hotel
    else
      match toDecimal (pd.net.getD (.vnum 0)) with
      | .error e => .error e
      | .ok net =>
        match toDecimal (pd.markup.getD (.vnum 0)) with
        | .error e => .error e
        | .ok markupRaw =>
          let markup := markupRaw / 100
          let original_currency := pyUpper (pd.currency.getD "USD")
          let selling_price := net * (1 + markup)
          match getExchangeRate c original_currency with
          | .error e => .error e
          | .ok exchange_rate =>
            let converted_price :=
              if original_currency ≠ c.target_currency
              then selling_price * exchange_rate else selling_price
            .ok { hotel with price := some { pd with
                    selling_price := some (roundHalfUp2 converted_price),
                    selling_currency := some c.target_currency,
                    exchange_rate := some (roundHalfUp2 exchange_rate) } }

/-- `PricingResponseConverter.convert`: process every hotel entry in order,
the first escaping exception aborting the whole batch. -/
def convert (c : PricingResponseConverter) (hotels : List Hotel) :
    Except String (List Hotel) :=
  hotels.mapM (processHotel c)

/-! ## Calendar dates (`datetime.strptime(s, "%d/%m/%Y")`) -/

/-- Gregorian leap-year test. -/
def isLeap (y : ℕ) : Bool :=
  (y % 4 == 0 && y % 100 != 0) || y % 400 == 0

/-- Length of month `m` in year `y`. -/
def daysInMonth (y m : ℕ) : ℕ :=
  if m == 2 then (if isLeap y then 29 else 28)
  else if m == 4 || m == 6 || m == 9 || m == 11 then 30
  else 31

/-- Days in year `y` before the first of month `m`. -/
def daysBeforeMonth (y m : ℕ) : ℕ :=
  (List.range (m - 1)).foldl (fun acc i => acc + daysInMonth y (i + 1)) 0

/-- Proleptic-Gregorian ordinal of a date (01/01/0001 is day 1), as used by
`datetime` comparison and subtraction. -/
def dateOrdinal (y m d : ℕ) : ℕ :=
  365 * (y - 1) + (y - 1) / 4 - (y - 1) / 100 + (y - 1) / 400 +
    daysBeforeMonth y m + d

/-- `datetime.strptime(s, "%d/%m/%Y")`: day and month of 1–2 digits, year of
1–4 digits, separated by slashes, and a valid calendar date (year ≥ 1).
Returns the date's ordinal; `none` models the `ValueError` raised on any
other text. -/
def parseDateDMY (s : String) : Option ℕ :=
  match splitOnChar '/' s.data with
  | [ds, ms, ys] =>
    if 1 ≤ ds.length && ds.length ≤ 2 && ds.all Char.isDigit &&
       1 ≤ ms.length && ms.length ≤ 2 && ms.all Char.isDigit &&
       1 ≤ ys.length && ys.length ≤ 4 && ys.all Char.isDigit then
      let d := digitsToNat ds
      let m := digitsToNat ms
      let y := digitsToNat ys
      if 1 ≤ y && 1 ≤ m && m ≤ 12 && 1 ≤ d && d ≤ daysInMonth y m then
        some (dateOrdinal y m d)
      else none
    else none
  | _ => none

/-- `XmlProcessor._validate_dates`.  `today` is `datetime.today()` as a
rational day count (date ordinal plus time-of-day fraction).  The text of
each date element is `Option String` (`findtext` with no default);
`strptime(None, ...)` raises a `TypeError`, which the `except ValueError`
clause does not catch, so it escapes (the `.error` branch).  A malformed
date string raises `ValueError`, which is caught: one format error is
appended and neither date is recorded.  When both parse, both date strings
are recorded and the two policy checks may each append an error. -/
def validateDates (today : ℚ) (startStr endStr : Option String) :
    Except String (List String × Option String × Option String) :=
  match startStr with
  | none => .error "strptime() argument 1 must be str, not NoneType"
  | some ss =>
    match parseDateDMY ss with
    | none => .ok (["Invalid date format, expected DD/MM/YYYY."], none, none)
    | some sord =>
      match endStr with
      | none => .error "strptime() argument 1 must be str, not NoneType"
      | some es =>
        match parseDateDMY es with
        | none => .ok (["Invalid date format, expected DD/MM/YYYY."], none, none)
        | some eord =>
          let errs :=
            (if (sord : ℚ) < today + 2
             then ["StartDate must be at least 2 days after today."] else []) ++
            (if (eord : ℤ) - (sord : ℤ) < 3
             then ["Stay duration must be at least 3 nights."] else [])
          .ok (errs, some ss, some es)

/-! ## Credential parameters -/

/-- One `Configuration/Parameters/Parameter` element's three attributes, as
read by `param.attrib.get(field)` (absent attribute is `None`). -/
structure Param where
  password : Option String := none
  username : Option String := none
  companyID : Option String := none
deriving Repr, DecidableEq

/-- Python truthiness of an optional string attribute: `None` and the empty
string are falsy. -/
def optStrFalsy : Option String → Bool
  | none => true
  | some s => s.data.isEmpty

/-- Error list (empty or a singleton) contributed by one parameter entry:
every falsy required field is named; `CompanyID (invalid format)` is added
when `CompanyID` is falsy or not all digits. -/
def paramError (p : Param) : List String :=
  let mf :=
    (if optStrFalsy p.password then ["password"] else []) ++
    (if optStrFalsy p.username then ["username"] else []) ++
    (if optStrFalsy p.companyID then ["CompanyID"] else []) ++
    (if optStrFalsy p.companyID || !pyIsDigitString (p.companyID.getD "")
     then ["CompanyID (invalid format)"] else [])
  if mf.isEmpty then []
  else ["Missing or invalid required parameters: " ++ String.intercalate ", " mf]

/-- `HotelRequestProcessor._validate_required_parameters`: with no
`Parameter` elements, one fixed error and an empty recorded list; otherwise
one optional error per entry and all entries recorded. -/
def validateRequiredParameters (params : List Param) :
    List String × List Param :=
  if params.isEmpty then (["Missing required parameters in Configuration."], [])
  else (params.flatMap paramError, params)

/-! ## Search type and destinations -/

/-- `HotelRequestProcessor._validate_search_type_and_destinations`.
Result: appended errors, the recorded `SearchType`, and the recorded
`AvailDestinations` (`none` = key not written).  On an invalid search type
the method returns immediately after the error: destinations are neither
collected nor recorded.  Destination texts are `Option String` because
`_parse_text_list` collects `element.text`, which is `None` for an empty
element. -/
def validateSearchTypeAndDestinations (searchType : Option String)
    (destinations : List (Option String)) :
    List String × Option String × Option (List (Option String)) :=
  if searchType ≠ some "Single" ∧ searchType ≠ some "Multiple" then
    (["Invalid SearchType. Must be \x27Single\x27 or \x27Multiple\x27."], none, none)
  else
    let errs :=
      if searchType = some "Single" ∧ destinations.length ≠ 1 then
        ["Single SearchType must have exactly one destination."]
      else if searchType = some "Multiple" ∧ destinations.length > 5 then
        ["Multiple SearchType can have at most 5 destinations."]
      else []
    (errs, searchType, some destinations)

/-! ## Rooms and guests -/

/-- A `Pax` element's `type` and `age` attributes. -/
structure Pax where
  type : Option String := none
  age : Option String := none
deriving Repr, DecidableEq

/-- The occupancy record built per room. -/
structure RoomData where
  Adults : ℕ := 0
  Children : ℕ := 0
  childrenAges : List ℤ := []
deriving Repr, DecidableEq

/-- The per-pax counting loop of `_validate_rooms`: an `Adult` bumps the
adult count; a `Child` bumps the child count and appends `int(age)` with
the age attribute defaulted to `"0"` — `int` on non-numeric text raises
`ValueError`, which nothing in the processor catches. -/
def processRoom (paxes : List Pax) : Except String RoomData :=
  paxes.foldlM
    (fun rd pax =>
      if pax.type = some "Adult" then .ok { rd with Adults := rd.Adults + 1 }
      else if pax.type = some "Child" then
        match parsePyInt (pax.age.getD "0") with
        | none => .error "invalid literal for int() with base 10"
        | some a => .ok { rd with Children := rd.Children + 1,
                                  childrenAges := rd.childrenAges ++ [a] }
      else .ok rd)
    {}

/-- Room-by-room loop of `_validate_rooms` (rooms already within the room
count limit): a room with too many guests contributes only an error; other
rooms contribute their occupancy record plus the adult-presence and
child-count rule errors. -/
def validateRoomsGo : List (List Pax) → List String → List RoomData →
    Except String (List String × List RoomData)
  | [], errs, rds => .ok (errs, rds)
  | room :: rest, errs, rds =>
    if room.length > 4 then
      validateRoomsGo rest (errs ++ ["Maximum allowed guests per room: 4."]) rds
    else
      match processRoom room with
      | .error e => .error e
      | .ok rd =>
        let e1 := if rd.Children ≠ 0 ∧ rd.Adults = 0 then
            ["Each room must have at least one Adult if Children are present."]
          else []
        let e2 := if rd.Children > 2 then
            ["Maximum allowed children per room: 2."] else []
        validateRoomsGo rest (errs ++ e1 ++ e2) (rds ++ [rd])

/-- `HotelRequestProcessor._validate_rooms`: more than 5 rooms appends one
error and returns without recording `Rooms` (`none`); otherwise the room
loop runs and the room list is recorded (`some`). -/
def validateRooms (rooms : List (List Pax)) :
    Except String (List String × Option (List RoomData)) :=
  if rooms.length > 5 then .ok (["Maximum allowed rooms: 5."], none)
  else
    match validateRoomsGo rooms [] [] with
    | .error e => .error e
    | .ok (errs, rds) => .ok (errs, some rds)

/-! ## Field-rule primitives -/

/-- `XmlProcessor._get_validated_field`: element text (or the default when
the element is absent), silently replaced by the default when not in the
allow-list. -/
def getValidatedField (text : Option String) (valid : List String)
    (dflt : String) : String :=
  let v := text.getD dflt
  if valid.contains v then v else dflt

/-- `XmlProcessor._parse_integer`: all-digit non-empty text parses and is
clamped to `max_value` when that is truthy (not `None`, not 0); anything
else yields the default. -/
def parseInteger (text : Option String) (dflt : ℕ) (maxValue : Option ℕ) : ℕ :=
  match text with
  | some s =>
    if pyIsDigitString s then
      let v := digitsToNat s.toList
      match maxValue with
      | some m => if m = 0 then v else min v m
      | none => v
    else dflt
  | none => dflt

/-! ## XML trees and the structural mapper (`XmltoDictProcessor`) -/

mutual

/-- A well-formed XML element: tag, attributes (in document order), optional
text content, and child elements.  Comments and processing instructions are
already filtered away, as in `_element_to_dict`.  (The child list is its own
inductive so that all tree recursion below is structural.) -/
inductive Xml where
  | elem (tag : String) (attrs : List (String × String)) (text : Option String)
      (children : XmlList)

/-- A list of child elements. -/
inductive XmlList where
  | nil
  | cons (head : Xml) (tail : XmlList)

end

/-- Build a child list from an ordinary list. -/
def XmlList.ofList : List Xml → XmlList
  | [] => .nil
  | x :: xs => .cons x (XmlList.ofList xs)

def Xml.tag : Xml → String
  | .elem t _ _ _ => t

def Xml.attrs : Xml → List (String × String)
  | .elem _ a _ _ => a

def Xml.text : Xml → Option String
  | .elem _ _ t _ => t

def Xml.children : Xml → XmlList
  | .elem _ _ _ c => c

def XmlList.isNil : XmlList → Bool
  | .nil => true
  | .cons _ _ => false

/-- JSON-compatible value produced by the structural mapper. -/
inductive JVal where
  | jstr (s : String)
  | jbool (b : Bool)
  | jint (n : ℤ)
  | jfloat (q : ℚ)
  | jobj (entries : List (String × JVal))
  | jarr (items : List JVal)
deriving Repr

/-- `XmltoDictProcessor._fromstring`: empty text becomes `""`, boolean
literals (case-insensitive) become booleans, then integer, then float, else
the text itself. -/
def fromString (value : String) : JVal :=
  if value.data.isEmpty then .jstr ""
  else if pyLower value = "true" then .jbool true
  else if pyLower value = "false" then .jbool false
  else
    match parsePyInt value with
    | some n => .jint n
    | none =>
      match parsePyFloat value with
      | some q => .jfloat q
      | none => .jstr value

/-- Insert a value under `tag` into the accumulated entry list, appending to
the list already stored at `tag` (the `setdefault(...).append(...)` path for
repeated tags). -/
def appendToTag : List (String × JVal) → String → JVal → List (String × JVal)
  | [], t, v => [(t, .jarr [v])]
  | (k, w) :: rest, t, v =>
    if k = t then
      match w with
      | .jarr l => (k, .jarr (l ++ [v])) :: rest
      | _ => (k, w) :: appendToTag rest t v
    else (k, w) :: appendToTag rest t v

/-- Number of children of the parent sharing this tag (the `Counter`). -/
def tagCount (t : String) : XmlList → ℕ
  | .nil => 0
  | .cons c rest => (if Xml.tag c = t then 1 else 0) + tagCount t rest

mutual

/-- `XmltoDictProcessor._element_to_dict`: attributes first (keys prefixed
with `@`, values coerced), then either the coerced non-blank text for a
leaf, the attribute mapping alone, or the children grouped by tag with
repeated tags collected into lists in document order. -/
def elementToDict : Xml → JVal
  | .elem _ attrs text children =>
    let attrEntries : List (String × JVal) :=
      attrs.map (fun p => ("@" ++ p.1, fromString p.2))
    if children.isNil then
      match text with
      | some t =>
        if !(trimChars t.data).isEmpty then fromString (pyStrip t)
        else .jobj attrEntries
      | none => .jobj attrEntries
    else
      .jobj (groupChildren children children attrEntries)

/-- The child-processing loop (`siblings` stays the full child list, for the
`Counter` lookups): a uniquely-tagged child becomes a single entry, a
repeated tag accumulates into a list at its first position. -/
def groupChildren (siblings : XmlList) :
    XmlList → List (String × JVal) → List (String × JVal)
  | .nil, acc => acc
  | .cons c rest, acc =>
    let v := elementToDict c
    let acc' := if tagCount (Xml.tag c) siblings = 1 then acc ++ [(Xml.tag c, v)]
      else appendToTag acc (Xml.tag c) v
    groupChildren siblings rest acc'

end

/-! ## XPath-style element access (`lxml` `findall` / `findtext`) -/

mutual

/-- All descendants (excluding the element itself) with the given tag, in
document order — the `.//tag` search. -/
def findAllDesc (tag : String) : Xml → List Xml
  | .elem _ _ _ children => findAllDescL tag children

/-- `findAllDesc` over a child list: each matching child in document order,
followed by the matches inside it. -/
def findAllDescL (tag : String) : XmlList → List Xml
  | .nil => []
  | .cons (.elem t a tx ch) rest =>
    (if t = tag then [Xml.elem t a tx ch] else []) ++
      findAllDescL tag ch ++ findAllDescL tag rest

end

/-- Direct children with the given tag, in order (one `tag` path step). -/
def childrenTagL (tag : String) : XmlList → List Xml
  | .nil => []
  | .cons c rest =>
    (if Xml.tag c = tag then [c] else []) ++ childrenTagL tag rest

/-- `childrenTagL` from an element. -/
def childrenTag (tag : String) (x : Xml) : List Xml :=
  childrenTagL tag (Xml.children x)

/-- `findtext(".//tag")` with no default: first match's text, `""` when the
matched element has no text, `none` when there is no match. -/
def findTextDesc (tag : String) (x : Xml) : Option String :=
  match findAllDesc tag x with
  | [] => none
  | e :: _ => some ((Xml.text e).getD "")

/-- `element.attrib.get(k)`. -/
def attrGet (attrs : List (String × String)) (k : String) : Option String :=
  (attrs.find? (fun p => p.1 == k)).map Prod.snd

/-- The `type` and `age` attributes of a `Pax` element. -/
def paxOfXml (x : Xml) : Pax :=
  ⟨attrGet (Xml.attrs x) "type", attrGet (Xml.attrs x) "age"⟩

/-- The three credential attributes of a `Parameter` element. -/
def paramOfXml (x : Xml) : Param :=
  ⟨attrGet (Xml.attrs x) "password", attrGet (Xml.attrs x) "username",
   attrGet (Xml.attrs x) "CompanyID"⟩

/-- `findall(".//Configuration/Parameters/Parameter")` read into `Param`s. -/
def findParams (root : Xml) : List Param :=
  ((findAllDesc "Configuration" root).flatMap (fun c =>
    (childrenTag "Parameters" c).flatMap (childrenTag "Parameter"))).map paramOfXml

/-- `_parse_text_list(".//AvailDestinations/Destination")`: the `text` of
each destination element (`None` for an empty element). -/
def findDestinations (root : Xml) : List (Option String) :=
  ((findAllDesc "AvailDestinations" root).flatMap (childrenTag "Destination")).map
    Xml.text

/-- The rooms (`findall(".//Paxes")`) with their guests
(`room.findall(".//Pax")`). -/
def findRooms (root : Xml) : List (List Pax) :=
  (findAllDesc "Paxes" root).map (fun room => (findAllDesc "Pax" room).map paxOfXml)

/-! ## The hotel request processor -/

/-- The `self.data` dictionary as populated by
`HotelRequestProcessor.process`; `none` marks a key never written. -/
structure ProcData where
  ServiceType : Option String := none
  timeoutMilliseconds : Option ℕ := none
  languageCode : Option String := none
  optionsQuota : Option ℕ := none
  ConfigurationParameters : List Param := []
  SearchType : Option String := none
  AvailDestinations : Option (List (Option String)) := none
  StartDate : Option String := none
  EndDate : Option String := none
  Currency : Option String := none
  Nationality : Option String := none
  Market : Option String := none
  Rooms : Option (List RoomData) := none
deriving Repr, DecidableEq

/-- The response envelope of `_build_response`, specialised to the two
processors: a hotel-request success carries `ProcData`, an xml-to-json
success carries the mapped structure, and a failure carries the error list. -/
inductive ParseResult where
  | hotelSuccess (data : ProcData)
  | dictSuccess (data : JVal)
  | failure (errors : List String)
deriving Repr

def VALID_languageCode : List String := ["en", "fr", "de", "es"]
def VALID_Currency : List String := ["EUR", "USD", "GBP"]
def VALID_Nationality : List String := ["US", "GB", "CA"]
def VALID_Market : List String := ["US", "GB", "CA", "ES"]

/-- `HotelRequestProcessor.process`: the validation steps run in order and
accumulate errors; an exception escaping a step (`TypeError` from the date
step, `ValueError` from the room step) aborts the whole call (`.error`).
`_build_response` returns the error batch when non-empty, else the data. -/
def hotelProcess (today : ℚ) (root : Xml) : Except String ParseResult :=
  let timeout := parseInteger (findTextDesc "timeoutMilliseconds" root) 0 none
  let lang := getValidatedField (findTextDesc "languageCode" root)
    VALID_languageCode "en"
  let quota := parseInteger (findTextDesc "optionsQuota" root) 20 (some 50)
  let pe := validateRequiredParameters (findParams root)
  let se := validateSearchTypeAndDestinations (findTextDesc "SearchType" root)
    (findDestinations root)
  match validateDates today (findTextDesc "StartDate" root)
      (findTextDesc "EndDate" root) with
  | .error e => .error e
  | .ok (e3, sd, ed) =>
    let curr := getValidatedField (findTextDesc "Currency" root)
      VALID_Currency "EUR"
    let natl := getValidatedField (findTextDesc "Nationality" root)
      VALID_Nationality "US"
    let mkt := getValidatedField (findTextDesc "Market" root)
      VALID_Market "ES"
    match validateRooms (findRooms root) with
    | .error e => .error e
    | .ok (e4, roomsOpt) =>
      let errors := pe.1 ++ se.1 ++ e3 ++ e4
      if errors.isEmpty then
        .ok (.hotelSuccess {
          ServiceType := some "HotelSearchRequest",
          timeoutMilliseconds := some timeout,
          languageCode := some lang,
          optionsQuota := some quota,
          ConfigurationParameters := pe.2,
          SearchType := se.2.1,
          AvailDestinations := se.2.2,
          StartDate := sd, EndDate := ed,
          Currency := some curr, Nationality := some natl, Market := some mkt,
          Rooms := roomsOpt })
      else .ok (.failure errors)

/-! ## The public entry point -/

/-- The raw input to `parse_xml`: either text that fails XML parsing (the
constructor turns the `XMLSyntaxError` into `ValueError("Malformed XML: ...")`)
or a well-formed element tree. -/
inductive XmlInput where
  | malformed (msg : String)
  | tree (root : Xml)

/-- Dispatch and processing inside the `try` block of `parse_xml`: registry
lookup (`search_req`, `xml_to_json`), processor construction, `process()`.
Every Python exception raised anywhere inside is an `.error`. -/
def runProcessor (today : ℚ) (input : XmlInput) (request_type : String) :
    Except String ParseResult :=
  if request_type ≠ "search_req" ∧ request_type ≠ "xml_to_json" then
    .error ("Invalid request type: " ++ request_type)
  else
    match input with
    | .malformed msg => .error ("Malformed XML: " ++ msg)
    | .tree root =>
      if request_type = "search_req" then hotelProcess today root
      else .ok (.dictSuccess (elementToDict root))

/-- `parse_xml`: the `except Exception` wrapper turning any escaping
exception into the `{"status": "error", "errors": [str(ex)]}` envelope. -/
def parse_xml (today : ℚ) (input : XmlInput) (request_type : String) :
    ParseResult :=
  match runProcessor today input request_type with
  | .ok r => r
  | .error e => .failure [e]

/-- A request tree that accumulates an `Invalid SearchType` error and then
hits the `int("abc")` exception in room validation: used to observe that the
exception envelope discards the errors accumulated before it. -/
def c10Tree : Xml :=
  .elem "AvailRQ" [] none (.ofList [
    .elem "SearchType" [] (some "Bogus") .nil,
    .elem "StartDate" [] (some "10/01/2025") .nil,
    .elem "EndDate" [] (some "20/01/2025") .nil,
    .elem "Configuration" [] none (.ofList [.elem "Parameters" [] none
      (.ofList [.elem "Parameter"
        [("password", "p"), ("username", "u"), ("CompanyID", "123")] none .nil])]),
    .elem "Paxes" [] none (.ofList [
      .elem "Pax" [("type", "Adult")] none .nil,
      .elem "Pax" [("type", "Child"), ("age", "abc")] none .nil])
  ])

/-! ## Claim theorems -/

/-- C1: for a priced item with net 100.00, markup 5 percent, item currency
"USD", target currency "EUR" and rate table {USD: 1.0, EUR: 0.85}, the
converter constructs successfully and produces exactly selling price 89.25,
selling currency "EUR" and applied exchange rate 0.85
(= rateTable[target]/rateTable[itemCurrency] = 0.85/1.0, applied to the
pre-FX selling price 105.00). -/
theorem c1_pricing_round_trip :
    mkConverter "EUR" (some [("USD", 1), ("EUR", 85/100)]) =
      .ok ⟨"EUR", [("USD", 1), ("EUR", 85/100)]⟩ ∧
    processHotel ⟨"EUR", [("USD", 1), ("EUR", 85/100)]⟩
      { price := some { net := some (.vnum 100), markup := some (.vnum 5),
                        currency := some "USD" } } =
      .ok { price := some { net := some (.vnum 100), markup := some (.vnum 5),
                            currency := some "USD",
                            selling_price := some (8925/100),
                            selling_currency := some "EUR",
                            exchange_rate := some (85/100) } } := by
  constructor
  · rfl
  · have h : processHotel ⟨"EUR", [("USD", 1), ("EUR", 85/100)]⟩
        { price := some { net := some (.vnum 100), markup := some (.vnum 5),
                          currency := some "USD" } } =
        .ok { price := some { net := some (.vnum 100), markup := some (.vnum 5),
                              currency := some "USD",
                              selling_price := some
                                (roundHalfUp2 (100 * (1 + 5/100) * (85/100 / 1))),
                              selling_currency := some "EUR",
                              exchange_rate := some (roundHalfUp2 (85/100 / 1)) } } := rfl
    rw [h]
    norm_num [roundHalfUp2]

/-- C2: the converter rounds both emitted values — the converted selling
price and the applied exchange rate — with `roundHalfUp2`, i.e. to 2 decimal
places; `roundHalfUp2` sends every non-negative midpoint (2n+1)/200 upward
(never to even), and in particular 2.345 becomes 2.35, not 2.34. -/
theorem c2_round_half_up :
    (∀ (c : PricingResponseConverter) (h : Hotel) (pd : PriceData)
        (net markupRaw rate : ℚ),
        h.price = some pd → pd.falsy = false →
        toDecimal (pd.net.getD (.vnum 0)) = .ok net →
        toDecimal (pd.markup.getD (.vnum 0)) = .ok markupRaw →
        getExchangeRate c (pyUpper (pd.currency.getD "USD")) = .ok rate →
        processHotel c h = .ok { h with price := some { pd with
          selling_price := some (roundHalfUp2
            (if pyUpper (pd.currency.getD "USD") ≠ c.target_currency
             then net * (1 + markupRaw / 100) * rate
             else net * (1 + markupRaw / 100))),
          selling_currency := some c.target_currency,
          exchange_rate := some (roundHalfUp2 rate) } }) ∧
    (∀ n : ℕ, roundHalfUp2 ((2 * n + 1) / 200) = (n + 1) / 100) ∧
    roundHalfUp2 (2345/1000) = 235/100 ∧ roundHalfUp2 (2345/1000) ≠ 234/100 := by
  refine ⟨?_, ?_, ?_, ?_⟩
  · intro c h pd net markupRaw rate hp hf hnet hmk hrate
    unfold processHotel
    rw [hp]
    simp only [hf, Bool.false_eq_true, if_false, hnet, hmk, hrate]
  · intro n
    have h0 : (0:ℚ) ≤ (2 * n + 1) / 200 := by positivity
    rw [roundHalfUp2, if_pos h0]
    have hfl : ((2 * (n:ℚ) + 1) / 200) * 100 + 1/2 = ((n + 1 : ℤ) : ℚ) := by
      push_cast
      ring
    rw [hfl, Int.floor_intCast]
    push_cast
    ring
  · norm_num [roundHalfUp2]
  · norm_num [roundHalfUp2]

/-- C2 witness: the general rounding shape applied at the concrete C1-style
input, every hypothesis discharged by evaluation. -/
theorem c2_round_half_up_witness :
    processHotel ⟨"EUR", [("USD", 1), ("EUR", 85/100)]⟩
      { price := some { net := some (.vnum 100), markup := some (.vnum 5),
                        currency := some "USD" } } =
      .ok { price := some { net := some (.vnum 100), markup := some (.vnum 5),
                            currency := some "USD",
                            selling_price := some (8925/100),
                            selling_currency := some "EUR",
                            exchange_rate := some (85/100) } } ∧
    roundHalfUp2 ((2 * (234 : ℕ) + 1) / 200) = 235/100 := by
  constructor
  · have h := c2_round_half_up.1 ⟨"EUR", [("USD", 1), ("EUR", 85/100)]⟩
      { price := some { net := some (.vnum 100), markup := some (.vnum 5),
                        currency := some "USD" } }
      { net := some (.vnum 100), markup := some (.vnum 5), currency := some "USD" }
      100 5 (85/100 / 1) rfl rfl rfl rfl rfl
    rw [h]
    have hne : (("USD" : String) = "EUR") = False := by simp
    norm_num [roundHalfUp2, show pyUpper "USD" = "USD" from rfl, hne]
  · have h := c2_round_half_up.2.1 234
    rw [h]
    norm_num

/-- C3 (code bug): reading a non-numeric net price raises
`decimal.InvalidOperation` out of `_to_decimal` — the `except (ValueError,
TypeError)` clause does not catch it — so conversion of the item aborts
instead of treating the value as 0; an absent net or markup does default
to 0 through `dict.get`. -/
theorem c3_to_decimal_uncaught :
    toDecimal (.vstr "abc") = .error "InvalidOperation" ∧
    processHotel ⟨"USD", [("USD", 1)]⟩
      { price := some { net := some (.vstr "abc") } } =
      .error "InvalidOperation" ∧
    processHotel ⟨"USD", [("USD", 1)]⟩
      { price := some { currency := some "USD" } } =
      .ok { price := some { currency := some "USD",
                            selling_price := some 0,
                            selling_currency := some "USD",
                            exchange_rate := some 1 } } := by
  refine ⟨rfl, rfl, ?_⟩
  have h : processHotel ⟨"USD", [("USD", 1)]⟩
      { price := some { currency := some "USD" } } =
      .ok { price := some { currency := some "USD",
                            selling_price := some (roundHalfUp2 (0 * (1 + 0 / 100))),
                            selling_currency := some "USD",
                            exchange_rate := some (roundHalfUp2 1) } } := rfl
  rw [h]
  norm_num [roundHalfUp2]

/-- C4 (code bug): a `Child` pax whose `age` attribute is non-numeric text
makes `int(age)` raise `ValueError`, aborting room validation instead of
recording age 0 and continuing; only an absent `age` attribute defaults
(via `attrib.get("age", "0")`) to a recorded age of 0. -/
theorem c4_child_age_raises :
    validateRooms [[{ type := some "Child", age := some "abc" },
                    { type := some "Adult" }]] =
      .error "invalid literal for int() with base 10" ∧
    validateRooms [[{ type := some "Adult" }, { type := some "Child" }]] =
      .ok ([], some [{ Adults := 1, Children := 1, childrenAges := [0] }]) :=
  ⟨rfl, rfl⟩

/-- C5 counterexample: with SearchType "Bogus" and one destination, the
validator reports the invalid-search-type error but records no destinations
list at all (the method returns before collecting them), contradicting the
claim that destinations are still collected and recorded. -/
theorem c5_counterexample :
    validateSearchTypeAndDestinations (some "Bogus") [some "A"] =
      (["Invalid SearchType. Must be \x27Single\x27 or \x27Multiple\x27."],
        none, none) ∧
    (validateSearchTypeAndDestinations (some "Bogus") [some "A"]).2.2 ≠
      some [some "A"] :=
  ⟨rfl, by decide⟩

/-- C5 amended: for every request whose SearchType text is neither "Single"
nor "Multiple", validation reports the invalid-search-type error, skips the
destination-count checks, and records neither the SearchType nor the
destinations list in the output data. -/
theorem c5_invalid_search_type (st : Option String)
    (dests : List (Option String))
    (h1 : st ≠ some "Single") (h2 : st ≠ some "Multiple") :
    validateSearchTypeAndDestinations st dests =
      (["Invalid SearchType. Must be \x27Single\x27 or \x27Multiple\x27."],
        none, none) := by
  unfold validateSearchTypeAndDestinations
  rw [if_pos ⟨h1, h2⟩]

/-- C5 witness: the amended statement at SearchType "Bogus" with two
destinations. -/
theorem c5_invalid_search_type_witness :
    validateSearchTypeAndDestinations (some "Bogus") [some "A", some "B"] =
      (["Invalid SearchType. Must be \x27Single\x27 or \x27Multiple\x27."],
        none, none) :=
  c5_invalid_search_type (some "Bogus") [some "A", some "B"]
    (by decide) (by decide)

/-- C6: when a present date string fails to parse as DD/MM/YYYY, exactly one
"invalid date format" error is appended and neither date is recorded; when
both parse, StartDate and EndDate are always recorded, with the start-policy
and stay-length errors appended exactly when their conditions hold. -/
theorem c6_date_validation (today : ℚ) (ss es : String) :
    (parseDateDMY ss = none →
      validateDates today (some ss) (some es) =
        .ok (["Invalid date format, expected DD/MM/YYYY."], none, none)) ∧
    (∀ so : ℕ, parseDateDMY ss = some so → parseDateDMY es = none →
      validateDates today (some ss) (some es) =
        .ok (["Invalid date format, expected DD/MM/YYYY."], none, none)) ∧
    (∀ so eo : ℕ, parseDateDMY ss = some so → parseDateDMY es = some eo →
      validateDates today (some ss) (some es) =
        .ok ((if (so : ℚ) < today + 2
              then ["StartDate must be at least 2 days after today."] else []) ++
             (if (eo : ℤ) - (so : ℤ) < 3
              then ["Stay duration must be at least 3 nights."] else []),
          some ss, some es)) := by
  refine ⟨?_, ?_, ?_⟩
  · intro hs
    simp only [validateDates, hs]
  · intro so hs he
    simp only [validateDates, hs, he]
  · intro so eo hs he
    simp only [validateDates, hs, he]

/-- C6 witness: a malformed start date, a malformed end date, and a pair of
valid in-policy dates, each case evaluated concretely. -/
theorem c6_date_validation_witness :
    validateDates 0 (some "bad") (some "01/01/2025") =
      .ok (["Invalid date format, expected DD/MM/YYYY."], none, none) ∧
    validateDates 0 (some "01/01/2025") (some "bad") =
      .ok (["Invalid date format, expected DD/MM/YYYY."], none, none) ∧
    validateDates 0 (some "10/01/2025") (some "20/01/2025") =
      .ok ([], some "10/01/2025", some "20/01/2025") := by
  refine ⟨(c6_date_validation 0 "bad" "01/01/2025").1 rfl,
    (c6_date_validation 0 "01/01/2025" "bad").2.1 739252 rfl rfl, ?_⟩
  have h := (c6_date_validation 0 "10/01/2025" "20/01/2025").2.2
    739261 739271 rfl rfl
  rw [h]
  norm_num

/-- C7: with SearchType "Single" and exactly two destination entries, the
validator appends exactly the single-destination error and still records
the two-element destinations list. -/
theorem c7_single_two_destinations (d1 d2 : Option String) :
    validateSearchTypeAndDestinations (some "Single") [d1, d2] =
      (["Single SearchType must have exactly one destination."],
        some "Single", some [d1, d2]) ∧
    ([d1, d2] : List (Option String)).length = 2 := by
  refine ⟨?_, rfl⟩
  unfold validateSearchTypeAndDestinations
  simp

/-- C8 counterexample: a request with two credential entries, each missing
every field, yields two "Missing or invalid required parameters" errors,
not exactly one. -/
theorem c8_counterexample :
    (validateRequiredParameters [{}, {}]).1 =
      ["Missing or invalid required parameters: password, username, CompanyID, CompanyID (invalid format)",
       "Missing or invalid required parameters: password, username, CompanyID, CompanyID (invalid format)"] ∧
    (validateRequiredParameters [{}, {}]).1.length ≠ 1 :=
  ⟨rfl, by decide⟩

/-- An all-missing credential entry contributes exactly the combined error
naming all three fields plus the CompanyID format flag. -/
theorem paramError_all_missing (p : Param)
    (h1 : p.password = none) (h2 : p.username = none)
    (h3 : p.companyID = none) :
    paramError p =
      ["Missing or invalid required parameters: password, username, CompanyID, CompanyID (invalid format)"] := by
  cases p
  simp only at h1 h2 h3
  subst h1 h2 h3
  rfl

/-- `paramError_all_missing` over a whole entry list. -/
theorem flatMap_paramError_all_missing (params : List Param)
    (hall : ∀ p ∈ params,
      p.password = none ∧ p.username = none ∧ p.companyID = none) :
    params.flatMap paramError = params.map (fun _ =>
      "Missing or invalid required parameters: password, username, CompanyID, CompanyID (invalid format)") := by
  induction params with
  | nil => rfl
  | cons p rest ih =>
    obtain ⟨h1, h2, h3⟩ := hall p (List.mem_cons_self p rest)
    rw [List.flatMap_cons, List.map_cons, paramError_all_missing p h1 h2 h3,
      ih (fun q hq => hall q (List.mem_cons_of_mem p hq))]
    rfl

/-- C8 amended: for every request with at least one credential entry in
which every credential field is missing, validation produces one "missing
or invalid required parameters" error per entry — each naming password,
username and CompanyID (and additionally flagging the CompanyID format) —
so exactly one such error when there is exactly one entry. -/
theorem c8_missing_credentials (params : List Param) (hne : params ≠ [])
    (hall : ∀ p ∈ params,
      p.password = none ∧ p.username = none ∧ p.companyID = none) :
    (validateRequiredParameters params).1 = params.map (fun _ =>
      "Missing or invalid required parameters: password, username, CompanyID, CompanyID (invalid format)") ∧
    (validateRequiredParameters params).1.length = params.length := by
  unfold validateRequiredParameters
  rw [if_neg (by
    cases params with
    | nil => exact absurd rfl hne
    | cons a l => simp)]
  rw [show ((params.flatMap paramError, params) :
      List String × List Param).1 = params.flatMap paramError from rfl]
  rw [flatMap_paramError_all_missing params hall]
  simp

/-- C8 witness: the amended statement at a single all-empty credential
entry, producing exactly one error. -/
theorem c8_missing_credentials_witness :
    (validateRequiredParameters [⟨none, none, none⟩]).1 =
      ["Missing or invalid required parameters: password, username, CompanyID, CompanyID (invalid format)"] ∧
    (validateRequiredParameters [⟨none, none, none⟩]).1.length = 1 :=
  c8_missing_credentials [⟨none, none, none⟩] (by simp)
    (fun p hp => by
      rw [List.mem_singleton] at hp
      subst hp
      exact ⟨rfl, rfl, rfl⟩)

/-- C9: an item whose price block is absent (or empty, hence falsy) passes
through the converter unmodified; an item with a price block that converts
successfully gets `selling_price`, `selling_currency` (the target currency)
and `exchange_rate` attached while its `net`, `markup`, `currency`, every
other price key and every non-price field stay unchanged. -/
theorem c9_frame_effect :
    (∀ (c : PricingResponseConverter) (h : Hotel),
        (h.price = none ∨ ∃ pd, h.price = some pd ∧ pd.falsy = true) →
        processHotel c h = .ok h) ∧
    (∀ (c : PricingResponseConverter) (h h' : Hotel) (pd : PriceData),
        h.price = some pd → pd.falsy = false → processHotel c h = .ok h' →
        h'.rest = h.rest ∧ ∃ sp er, h'.price = some
          { net := pd.net, markup := pd.markup, currency := pd.currency,
            selling_price := some sp,
            selling_currency := some c.target_currency,
            exchange_rate := some er, extra := pd.extra }) := by
  constructor
  · intro c h hp
    rcases hp with hp | ⟨pd, hp, hf⟩
    · unfold processHotel
      rw [hp]
    · unfold processHotel
      rw [hp]
      simp [hf]
  · intro c h h' pd hp hf hok
    unfold processHotel at hok
    rw [hp] at hok
    simp only [hf, Bool.false_eq_true, if_false] at hok
    cases hnet : toDecimal (pd.net.getD (.vnum 0)) with
    | error e => simp only [hnet] at hok; exact Except.noConfusion hok
    | ok net =>
      simp only [hnet] at hok
      cases hmk : toDecimal (pd.markup.getD (.vnum 0)) with
      | error e => simp only [hmk] at hok; exact Except.noConfusion hok
      | ok markupRaw =>
        simp only [hmk] at hok
        cases hrt : getExchangeRate c (pyUpper (pd.currency.getD "USD")) with
        | error e => simp only [hrt] at hok; exact Except.noConfusion hok
        | ok rate =>
          simp only [hrt, Except.ok.injEq] at hok
          subst hok
          exact ⟨rfl, _, _, rfl⟩

/-- C9 witness: a priceless item with another field passes through
unchanged, and a concrete converted item keeps its original fields while
gaining the three selling fields. -/
theorem c9_frame_effect_witness :
    processHotel ⟨"USD", [("USD", 1)]⟩
      { price := none, rest := [("name", .vstr "X")] } =
      .ok { price := none, rest := [("name", .vstr "X")] } ∧
    (∃ sp er,
      ({ price := some { net := some (.vnum 10),
                         selling_price := some (roundHalfUp2 (10 * (1 + 0 / 100))),
                         selling_currency := some "USD",
                         exchange_rate := some (roundHalfUp2 1) } } : Hotel).price =
        some { net := some (.vnum 10), markup := none, currency := none,
               selling_price := some sp, selling_currency := some "USD",
               exchange_rate := some er, extra := [] }) :=
  ⟨c9_frame_effect.1 ⟨"USD", [("USD", 1)]⟩
      { price := none, rest := [("name", .vstr "X")] } (Or.inl rfl),
   (c9_frame_effect.2 ⟨"USD", [("USD", 1)]⟩
      { price := some { net := some (.vnum 10) } }
      { price := some { net := some (.vnum 10),
                        selling_price := some (roundHalfUp2 (10 * (1 + 0 / 100))),
                        selling_currency := some "USD",
                        exchange_rate := some (roundHalfUp2 1) } }
      { net := some (.vnum 10) } rfl rfl rfl).2⟩

/-- C10: `parse_xml` is total: it returns either the processor's response
or, when any exception escapes construction or processing — malformed XML,
an unknown request type, or an exception from a validation rule — the
envelope `{"status": "error", "errors": [str(ex)]}` with exactly one error
string; the xml-to-json processor itself never raises; and on a request
that had already accumulated a validation error before the room step's
exception, the envelope carries only the exception string, discarding the
accumulated error. -/
theorem c10_parse_xml_total :
    (∀ (today : ℚ) (input : XmlInput) (rt : String),
      (∃ r, runProcessor today input rt = .ok r ∧
        parse_xml today input rt = r) ∨
      (∃ e, runProcessor today input rt = .error e ∧
        parse_xml today input rt = .failure [e] ∧
        ([e] : List String).length = 1)) ∧
    (∀ (today : ℚ) (m rt : String), rt = "search_req" ∨ rt = "xml_to_json" →
      parse_xml today (.malformed m) rt =
        .failure ["Malformed XML: " ++ m]) ∧
    (∀ (today : ℚ) (input : XmlInput) (rt : String),
      rt ≠ "search_req" → rt ≠ "xml_to_json" →
      parse_xml today input rt = .failure ["Invalid request type: " ++ rt]) ∧
    (∀ (today : ℚ) (x : Xml),
      runProcessor today (.tree x) "xml_to_json" =
        .ok (.dictSuccess (elementToDict x))) ∧
    parse_xml 0 (.tree c10Tree) "search_req" =
      .failure ["invalid literal for int() with base 10"] := by
  refine ⟨?_, ?_, ?_, ?_, rfl⟩
  · intro today input rt
    cases hrp : runProcessor today input rt with
    | ok r => exact Or.inl ⟨r, rfl, by unfold parse_xml; rw [hrp]⟩
    | error e => exact Or.inr ⟨e, rfl, by unfold parse_xml; rw [hrp], rfl⟩
  · intro today m rt hrt
    rcases hrt with rfl | rfl
    · rfl
    · rfl
  · intro today input rt h1 h2
    unfold parse_xml runProcessor
    rw [if_pos ⟨h1, h2⟩]
  · intro today x
    rfl

/-- C10 witness: the malformed-XML case under a known request type and the
unknown-request-type case, each yielding a one-error envelope. -/
theorem c10_parse_xml_total_witness :
    parse_xml 0 (.malformed "boom") "search_req" =
      .failure ["Malformed XML: " ++ "boom"] ∧
    parse_xml 0 (.malformed "boom") "other" =
      .failure ["Invalid request type: " ++ "other"] :=
  ⟨c10_parse_xml_total.2.1 0 "boom" "search_req" (Or.inl rfl),
   c10_parse_xml_total.2.2.1 0 (.malformed "boom") "other"
     (by decide) (by decide)⟩

end B2b
